import Mathlib

/-!
Shallow embedding of the view-state orchestration logic of
`src/frontend/src/app/page.tsx` (the `Home` component of the job-list
dashboard).  React `useState` fields become a record `PageState`; each async
handler is split into its synchronous dispatch part (everything before the
`await fetch`) and its resolution part (what runs when the response arrives,
taking the response as an `Except`).  Side channels (toast notifications,
`console.error` logs, outgoing HTTP requests) are returned explicitly in a
`StepOut` record.  JavaScript `String.prototype.trim` is modelled by
`jsTrim`; JS string truthiness (`if (s)`) is modelled as `s ≠ ""`.
-/

/-- Sync form status, the `useState<"Open" | "Close">` value. -/
inductive SyncStatus where
  | Open
  | Close
deriving DecidableEq, Repr

/-- Sort key for the job-groups list, `useState<"date_created" | "status">`. -/
inductive SortKey where
  | date_created
  | statusKey
deriving DecidableEq, Repr

/-- The query-string value a `SortKey` serialises to. -/
def sortKeyStr : SortKey → String
  | SortKey.date_created => "date_created"
  | SortKey.statusKey => "status"

/-- Sort order, `useState<"asc" | "desc">`. -/
inductive SortOrder where
  | asc
  | desc
deriving DecidableEq, Repr

/-- The query-string value a `SortOrder` serialises to. -/
def sortOrderStr : SortOrder → String
  | SortOrder.asc => "asc"
  | SortOrder.desc => "desc"

/-- The `Job` interface of `page.tsx`; nullable TS fields become `Option`. -/
structure Job where
  id : Option Nat := none
  job_group_id : String
  job_post_id : String
  job_title : String
  email : String
  apply_link : String
  image_link : String
  category : Option String
  country : Option String
  status : Option String
  date_created : Option String
deriving DecidableEq, Repr

/-- The `SyncResponse` interface: outcome of `POST /api/sync-jobs`. -/
structure SyncResponse where
  success : Bool
  message : String
  rows_affected : Int
  jobs : List Job
  embeddings_updated : Option Int := none
deriving DecidableEq, Repr

/-- The `JobGroup` interface: one row of the job-groups table. -/
structure JobGroup where
  job_group_id : String
  status : Option String
  date_created : Option String
  job_count : Nat
deriving DecidableEq, Repr

/-- The `Stats` interface: dashboard counters from `GET /api/stats`. -/
structure Stats where
  total_open_trips : Nat
  total_open_jobs : Nat
  total_trips : Nat
  total_jobs : Nat
deriving DecidableEq, Repr

/-- All `useState` fields of the `Home` component, in declaration order. -/
structure PageState where
  jobGroupId : String
  status : SyncStatus
  loading : Bool
  result : Option SyncResponse
  jobGroups : List JobGroup
  jobGroupsLoading : Bool
  jobGroupsError : Option String
  stats : Option Stats
  statsLoading : Bool
  statusFilter : String
  sortBy : SortKey
  sortOrder : SortOrder
  searchQuery : String
  secretCode : String
  reindexJobGroupId : String
  reindexLoading : Bool
  countries : List String
  selectedCountry : String
  modalOpen : Bool
  modalJobs : List Job
  modalGroupId : String
  modalLoading : Bool
deriving DecidableEq, Repr

/-- The initial state: the `useState` initialisers of `Home`. -/
def initialState : PageState where
  jobGroupId := ""
  status := SyncStatus.Open
  loading := false
  result := none
  jobGroups := []
  jobGroupsLoading := true
  jobGroupsError := none
  stats := none
  statsLoading := true
  statusFilter := "all"
  sortBy := SortKey.date_created
  sortOrder := SortOrder.desc
  searchQuery := ""
  secretCode := ""
  reindexJobGroupId := ""
  reindexLoading := false
  countries := []
  selectedCountry := ""
  modalOpen := false
  modalJobs := []
  modalGroupId := ""
  modalLoading := false

/-- A toast notification delivered through `sonner`. -/
inductive Toast where
  | success (msg : String)
  | error (msg : String)
deriving DecidableEq, Repr

/-- Body of `POST /api/sync-jobs` as built in `handleSync`. -/
structure SyncRequestBody where
  job_group_id : String
  status : SyncStatus
  country : Option String
deriving DecidableEq, Repr

/-- Body of `POST /api/reindex-all` as built in `handleReindexAll`. -/
structure ReindexRequestBody where
  secret_code : String
  job_group_id : Option String
deriving DecidableEq, Repr

/-- An outgoing HTTP request issued by one of the handlers. -/
inductive Request where
  | jobGroups (params : List (String × String))
  | stats
  | countries
  | jobs (groupId : String)
  | sync (body : SyncRequestBody)
  | reindex (body : ReindexRequestBody)
deriving DecidableEq, Repr

/-- Result of one synchronous step of a handler: the new component state,
the toasts shown, the `console.error` logs emitted, and the HTTP requests
dispatched during the step. -/
structure StepOut where
  state : PageState
  toasts : List Toast := []
  logs : List String := []
  requests : List Request := []
deriving DecidableEq, Repr

/-- Model of JavaScript `String.prototype.trim`: drop leading and trailing
whitespace.  Written structurally over `String.data` so that it reduces in
the kernel (Lean's own `String.trim` is defined by well-founded recursion). -/
def jsTrim (s : String) : String :=
  String.mk (((s.data.dropWhile Char.isWhitespace).reverse.dropWhile
    Char.isWhitespace).reverse)

/-- The `URLSearchParams` built in `fetchJobGroups`, as an ordered key/value
list: `status` appended only when the filter is not `"all"`, then `sort_by`
and `sort_order`, then `search` only when the query is non-empty after trim
(the trimmed text is appended). -/
def buildJobGroupsParams (s : PageState) : List (String × String) :=
  (if s.statusFilter ≠ "all" then [("status", s.statusFilter)] else []) ++
    [("sort_by", sortKeyStr s.sortBy), ("sort_order", sortOrderStr s.sortOrder)] ++
    (if jsTrim s.searchQuery ≠ "" then [("search", jsTrim s.searchQuery)] else [])

/-- Synchronous part of `fetchJobGroups`: set loading, clear the error, and
issue `GET /api/job-groups` with the query built from the current state. -/
def fetchJobGroupsStart (s : PageState) : StepOut where
  state := { s with jobGroupsLoading := true, jobGroupsError := none }
  requests := [Request.jobGroups (buildJobGroupsParams s)]

/-- Resolution of a `fetchJobGroups` response: on success replace the list;
on failure record the error message; `finally` clears the loading flag.
There is no check that the response belongs to the latest request. -/
def fetchJobGroupsResolve (s : PageState) (res : Except String (List JobGroup)) : StepOut :=
  match res with
  | Except.ok groups =>
      { state := { s with jobGroups := groups, jobGroupsLoading := false } }
  | Except.error e =>
      { state := { s with jobGroupsError := some e, jobGroupsLoading := false } }

/-- Synchronous part of `fetchStats`: set loading and issue `GET /api/stats`. -/
def fetchStatsStart (s : PageState) : StepOut where
  state := { s with statsLoading := true }
  requests := [Request.stats]

/-- Resolution of a `fetchStats` response: on success replace the snapshot;
on failure only `console.error` — no state field records the error. -/
def fetchStatsResolve (s : PageState) (res : Except String Stats) : StepOut :=
  match res with
  | Except.ok d => { state := { s with stats := some d, statsLoading := false } }
  | Except.error e =>
      { state := { s with statsLoading := false }
        logs := ["Error fetching stats: " ++ e] }

/-- Synchronous part of `fetchCountries`: issue `GET /api/countries`; there is
no loading flag for this resource. -/
def fetchCountriesStart (s : PageState) : StepOut where
  state := s
  requests := [Request.countries]

/-- Resolution of a `fetchCountries` response: on success replace the list;
on failure only `console.error` — no state change at all. -/
def fetchCountriesResolve (s : PageState) (res : Except String (List String)) : StepOut :=
  match res with
  | Except.ok cs => { state := { s with countries := cs } }
  | Except.error e => { state := s, logs := ["Error fetching countries: " ++ e] }

/-- Synchronous part of `openJobsModal groupId`: open the modal, set its
title group id, set loading, clear the previous job list, and issue
`GET /api/jobs/{groupId}`. -/
def openJobsModalStart (s : PageState) (groupId : String) : StepOut where
  state := { s with modalOpen := true, modalGroupId := groupId,
                    modalLoading := true, modalJobs := [] }
  requests := [Request.jobs groupId]

/-- Resolution of an `openJobsModal` response: on success replace the modal
job list; on failure show an error toast; `finally` clears the loading flag.
There is no check that the response belongs to the latest requested group. -/
def openJobsModalResolve (s : PageState) (res : Except String (List Job)) : StepOut :=
  match res with
  | Except.ok jobs => { state := { s with modalJobs := jobs, modalLoading := false } }
  | Except.error e =>
      { state := { s with modalLoading := false }, toasts := [Toast.error e] }

/-- Whether `data.embeddings_updated && data.embeddings_updated > 0` is
truthy: the field is present and strictly positive. -/
def embPos (d : SyncResponse) : Bool :=
  match d.embeddings_updated with
  | some n => decide (0 < n)
  | none => false

/-- The plain success toast text of `handleSync` (no embeddings clause). -/
def syncShortMessage (d : SyncResponse) : String :=
  d.message ++ " - " ++ toString d.rows_affected ++ " row(s) affected"

/-- The success toast text of `handleSync` with the embeddings clause. -/
def syncLongMessage (d : SyncResponse) (n : Int) : String :=
  d.message ++ " - " ++ toString d.rows_affected ++ " row(s) affected, " ++
    toString n ++ " embedding(s) rebuilt"

/-- The success toast text chosen by `handleSync`: the embeddings variant
only when the submitted status is `"Open"` and `embeddings_updated` is
present and positive. -/
def syncSuccessMessage (st : SyncStatus) (d : SyncResponse) : String :=
  if st = SyncStatus.Open ∧ embPos d then
    syncLongMessage d (d.embeddings_updated.getD 0)
  else
    syncShortMessage d

/-- Synchronous part of `handleSync`: validation (empty job-group id after
trim → toast and return, nothing else happens), else set the loading flag,
clear the previous result, and issue `POST /api/sync-jobs` with the trimmed
id, the selected status, and the selected country or `null`. -/
def handleSyncDispatch (s : PageState) : StepOut :=
  if jsTrim s.jobGroupId = "" then
    { state := s, toasts := [Toast.error "Please enter a job group ID"] }
  else
    { state := { s with loading := true, result := none }
      requests := [Request.sync
        { job_group_id := jsTrim s.jobGroupId
          status := s.status
          country := if s.selectedCountry = "" then none else some s.selectedCountry }] }

/-- Resolution of a `handleSync` response.  `capturedStatus` is the `status`
value captured by the handler's closure at dispatch time.  On success: store
the result, toast the success message, then run `fetchJobGroups()` and
`fetchStats()`; on failure: error toast only; `finally` clears the loading
flag.  The failure path never restores the result cleared at dispatch. -/
def handleSyncResolve (s : PageState) (capturedStatus : SyncStatus)
    (res : Except String SyncResponse) : StepOut :=
  match res with
  | Except.ok d =>
      let s1 : PageState := { s with result := some d }
      let o2 := fetchJobGroupsStart s1
      let o3 := fetchStatsStart o2.state
      { state := { o3.state with loading := false }
        toasts := [Toast.success (syncSuccessMessage capturedStatus d)]
        requests := o2.requests ++ o3.requests }
  | Except.error e =>
      { state := { s with loading := false }, toasts := [Toast.error e] }

/-- The `handleRefresh` click handler: `fetchJobGroups()` then `fetchStats()`. -/
def handleRefresh (s : PageState) : StepOut :=
  let o1 := fetchJobGroupsStart s
  let o2 := fetchStatsStart o1.state
  { state := o2.state, requests := o1.requests ++ o2.requests }

/-- Synchronous part of `handleReindexAll`: validation (empty secret code
after trim → toast and return), else set the reindex loading flag and issue
`POST /api/reindex-all` with the trimmed secret code and the trimmed group id
or `null` when that trims to empty (`reindexJobGroupId.trim() || null`). -/
def handleReindexDispatch (s : PageState) : StepOut :=
  if jsTrim s.secretCode = "" then
    { state := s, toasts := [Toast.error "Please enter the secret code"] }
  else
    { state := { s with reindexLoading := true }
      requests := [Request.reindex
        { secret_code := jsTrim s.secretCode
          job_group_id :=
            if jsTrim s.reindexJobGroupId = "" then none
            else some (jsTrim s.reindexJobGroupId) }] }

/-- Resolution of a `handleReindexAll` response: on success toast the server
message verbatim and clear both input fields; on failure toast the error and
leave the inputs untouched; `finally` clears the reindex loading flag. -/
def handleReindexResolve (s : PageState) (res : Except String String) : StepOut :=
  match res with
  | Except.ok message =>
      { state := { s with secretCode := "", reindexJobGroupId := "",
                          reindexLoading := false }
        toasts := [Toast.success message] }
  | Except.error e =>
      { state := { s with reindexLoading := false }, toasts := [Toast.error e] }

/-- The status-filter `Select` intent.  The `useEffect` with dependency array
`[statusFilter, sortBy, sortOrder]` reruns `fetchJobGroups` exactly when the
value changed (React skips the effect when the dependency is unchanged). -/
def onStatusFilterChange (s : PageState) (v : String) : StepOut :=
  if v = s.statusFilter then { state := s }
  else fetchJobGroupsStart { s with statusFilter := v }

/-- The sort-key `Select` intent; same effect rule as the status filter. -/
def onSortByChange (s : PageState) (v : SortKey) : StepOut :=
  if v = s.sortBy then { state := s }
  else fetchJobGroupsStart { s with sortBy := v }

/-- The `toggleSortOrder` button intent: flips the order, which always
changes the effect dependency, so `fetchJobGroups` always reruns. -/
def onToggleSortOrder (s : PageState) : StepOut :=
  fetchJobGroupsStart
    { s with sortOrder := if s.sortOrder = SortOrder.asc then SortOrder.desc
                          else SortOrder.asc }

/-- Typing in the search input: `setSearchQuery` only.  `searchQuery` is not
in any `useEffect` dependency array, so no fetch is issued. -/
def onSearchChange (s : PageState) (v : String) : StepOut :=
  { state := { s with searchQuery := v } }

/-- Pressing Enter in the search input: `onKeyDown` calls `fetchJobGroups()`
directly with the current state. -/
def onSearchEnter (s : PageState) : StepOut :=
  fetchJobGroupsStart s

/-! Concrete fixtures used by the counterexample and witness theorems. -/

/-- A sample open job group. -/
def sampleGroupA : JobGroup where
  job_group_id := "gA"
  status := some "Open"
  date_created := some "2024-01-01"
  job_count := 1

/-- A sample closed job group. -/
def sampleGroupB : JobGroup where
  job_group_id := "gB"
  status := some "Close"
  date_created := some "2024-02-02"
  job_count := 2

/-- A sample job belonging to group `g`. -/
def sampleJob (g : String) : Job where
  job_group_id := g
  job_post_id := g ++ "-p1"
  job_title := "Welder"
  email := "hr@example.com"
  apply_link := "https://example.com/apply"
  image_link := "https://example.com/img"
  category := none
  country := some "PH"
  status := some "Open"
  date_created := none

/-- A sample successful sync response. -/
def sampleSyncResponse : SyncResponse where
  success := true
  message := "Synced"
  rows_affected := 3
  jobs := [sampleJob "gA"]
  embeddings_updated := none

/-- Final state of a concrete job-groups race: the initial fetch (filter
`"all"`) is dispatched, the user switches the filter to `"Open"` (second
fetch dispatched), the second request's response `[sampleGroupA]` arrives
first, and the superseded first request's response
`[sampleGroupA, sampleGroupB]` arrives last. -/
def c1FinalState : PageState :=
  let o1 := fetchJobGroupsStart initialState
  let o2 := onStatusFilterChange o1.state "Open"
  let o3 := fetchJobGroupsResolve o2.state (Except.ok [sampleGroupA])
  let o4 := fetchJobGroupsResolve o3.state
    (Except.ok [sampleGroupA, sampleGroupB])
  o4.state

/-- Final state of a concrete modal race: `openJobsModal "g123"`, then
`openJobsModal "g456"` before the first resolves; the second request's
response (`g456`'s jobs) arrives first and the superseded first request's
response (`g123`'s jobs) arrives last. -/
def c2FinalState : PageState :=
  let o1 := openJobsModalStart initialState "g123"
  let o2 := openJobsModalStart o1.state "g456"
  let o3 := openJobsModalResolve o2.state (Except.ok [sampleJob "g456"])
  let o4 := openJobsModalResolve o3.state (Except.ok [sampleJob "g123"])
  o4.state

/-- A state holding a previously stored successful sync result and a valid
job-group id typed into the sync form. -/
def c3Before : PageState :=
  { initialState with result := some sampleSyncResponse, jobGroupId := "gB" }

/-- A successful sync response with a positive embeddings count. -/
def c4Resp : SyncResponse where
  success := true
  message := "Synced"
  rows_affected := 3
  jobs := []
  embeddings_updated := some 5

/-- A state holding a previously fetched stats snapshot, with a stats fetch
in flight. -/
def c5Before : PageState :=
  { initialState with stats := some ⟨1, 2, 3, 4⟩, statsLoading := true }

/-! Theorems for the claims. -/

/-- C7: when the sync form's job-group id trims to empty, or the reindex
secret code trims to empty (whatever the reindex group id is), the handler
issues no network request, shows only the validation toast, and leaves the
whole state unchanged. -/
theorem claim7_validation_no_dispatch (s : PageState) :
    (jsTrim s.jobGroupId = "" →
      handleSyncDispatch s =
        { state := s, toasts := [Toast.error "Please enter a job group ID"],
          logs := [], requests := [] })
  ∧ (jsTrim s.secretCode = "" →
      handleReindexDispatch s =
        { state := s, toasts := [Toast.error "Please enter the secret code"],
          logs := [], requests := [] }) := by
  constructor <;> intro h <;>
    simp [handleSyncDispatch, handleReindexDispatch, h]

/-- C7 witness: a whitespace-only job-group id and secret code (with a
non-empty reindex group id) trigger both validation branches. -/
theorem claim7_validation_no_dispatch_witness :
    handleSyncDispatch
        { initialState with jobGroupId := "   ", secretCode := " ",
                            reindexJobGroupId := "g9" } =
      { state := { initialState with jobGroupId := "   ", secretCode := " ",
                                     reindexJobGroupId := "g9" },
        toasts := [Toast.error "Please enter a job group ID"],
        logs := [], requests := [] }
  ∧ handleReindexDispatch
        { initialState with jobGroupId := "   ", secretCode := " ",
                            reindexJobGroupId := "g9" } =
      { state := { initialState with jobGroupId := "   ", secretCode := " ",
                                     reindexJobGroupId := "g9" },
        toasts := [Toast.error "Please enter the secret code"],
        logs := [], requests := [] } :=
  ⟨(claim7_validation_no_dispatch _).1 (by decide),
   (claim7_validation_no_dispatch _).2 (by decide)⟩

/-- C8: in the job-groups query, `status` is present exactly when the filter
is not `"all"` (with the filter as value), `sort_by` and `sort_order` are
always present, and `search` is present exactly when the search text is
non-empty after trimming (with the trimmed text as value). -/
theorem claim8_query_params (s : PageState) :
    (buildJobGroupsParams s).lookup "status" =
      (if s.statusFilter = "all" then none else some s.statusFilter)
  ∧ (buildJobGroupsParams s).lookup "sort_by" = some (sortKeyStr s.sortBy)
  ∧ (buildJobGroupsParams s).lookup "sort_order" = some (sortOrderStr s.sortOrder)
  ∧ (buildJobGroupsParams s).lookup "search" =
      (if jsTrim s.searchQuery = "" then none
       else some (jsTrim s.searchQuery)) := by
  by_cases h1 : s.statusFilter = "all" <;>
    by_cases h2 : jsTrim s.searchQuery = "" <;>
      simp [buildJobGroupsParams, h1, h2, List.lookup]

/-- C9: after a dispatched reindex attempt, success clears both the secret
code and group-id inputs and toasts the server message verbatim, while
failure leaves both inputs exactly as typed. -/
theorem claim9_reindex_inputs (s : PageState) (msg e : String)
    (h : jsTrim s.secretCode ≠ "") :
    ((handleReindexResolve (handleReindexDispatch s).state
        (Except.ok msg)).state.secretCode = ""
      ∧ (handleReindexResolve (handleReindexDispatch s).state
          (Except.ok msg)).state.reindexJobGroupId = ""
      ∧ (handleReindexResolve (handleReindexDispatch s).state
          (Except.ok msg)).toasts = [Toast.success msg])
  ∧ ((handleReindexResolve (handleReindexDispatch s).state
        (Except.error e)).state.secretCode = s.secretCode
      ∧ (handleReindexResolve (handleReindexDispatch s).state
          (Except.error e)).state.reindexJobGroupId = s.reindexJobGroupId
      ∧ (handleReindexResolve (handleReindexDispatch s).state
          (Except.error e)).toasts = [Toast.error e]) := by
  simp [handleReindexDispatch, handleReindexResolve, h]

/-- C9 witness: a concrete reindex attempt, resolved once as a success and
once as a failure. -/
theorem claim9_reindex_inputs_witness :
    ((handleReindexResolve
        (handleReindexDispatch { initialState with secretCode := "s3cr3t",
                                                   reindexJobGroupId := "gX" }).state
        (Except.ok "Reindexed 7 embeddings")).state.secretCode = ""
      ∧ (handleReindexResolve
          (handleReindexDispatch { initialState with secretCode := "s3cr3t",
                                                     reindexJobGroupId := "gX" }).state
          (Except.ok "Reindexed 7 embeddings")).state.reindexJobGroupId = ""
      ∧ (handleReindexResolve
          (handleReindexDispatch { initialState with secretCode := "s3cr3t",
                                                     reindexJobGroupId := "gX" }).state
          (Except.ok "Reindexed 7 embeddings")).toasts =
            [Toast.success "Reindexed 7 embeddings"])
  ∧ ((handleReindexResolve
        (handleReindexDispatch { initialState with secretCode := "s3cr3t",
                                                   reindexJobGroupId := "gX" }).state
        (Except.error "Invalid secret code")).state.secretCode = "s3cr3t"
      ∧ (handleReindexResolve
          (handleReindexDispatch { initialState with secretCode := "s3cr3t",
                                                     reindexJobGroupId := "gX" }).state
          (Except.error "Invalid secret code")).state.reindexJobGroupId = "gX"
      ∧ (handleReindexResolve
          (handleReindexDispatch { initialState with secretCode := "s3cr3t",
                                                     reindexJobGroupId := "gX" }).state
          (Except.error "Invalid secret code")).toasts =
            [Toast.error "Invalid secret code"]) :=
  claim9_reindex_inputs
    { initialState with secretCode := "s3cr3t", reindexJobGroupId := "gX" }
    "Reindexed 7 embeddings" "Invalid secret code" (by decide)

/-- C10: a dispatched reindex request carries `job_group_id` equal to the
trimmed group-id input when that trim is non-empty, and `null` otherwise
(so a whitespace-only input requests reindexing of everything). -/
theorem claim10_reindex_body (s : PageState) (h : jsTrim s.secretCode ≠ "") :
    ∃ b : ReindexRequestBody,
      (handleReindexDispatch s).requests = [Request.reindex b]
    ∧ b.secret_code = jsTrim s.secretCode
    ∧ (jsTrim s.reindexJobGroupId ≠ "" →
        b.job_group_id = some (jsTrim s.reindexJobGroupId))
    ∧ (jsTrim s.reindexJobGroupId = "" → b.job_group_id = none) := by
  refine ⟨{ secret_code := jsTrim s.secretCode,
            job_group_id := if jsTrim s.reindexJobGroupId = "" then none
                            else some (jsTrim s.reindexJobGroupId) }, ?_, rfl, ?_, ?_⟩
  · simp [handleReindexDispatch, h]
  · intro h2; simp [h2]
  · intro h2; simp [h2]

/-- C10 witness: with a whitespace-only group-id input the dispatched body
carries `job_group_id = null`. -/
theorem claim10_reindex_body_witness :
    ∃ b : ReindexRequestBody,
      (handleReindexDispatch
          { initialState with secretCode := "k", reindexJobGroupId := "   " }).requests
        = [Request.reindex b]
    ∧ b.job_group_id = none := by
  obtain ⟨b, h1, _, _, h4⟩ :=
    claim10_reindex_body
      { initialState with secretCode := "k", reindexJobGroupId := "   " } (by decide)
  exact ⟨b, h1, h4 (by decide)⟩

/-- C1: in the concrete race of `c1FinalState`, the most recently issued
request is the `"Open"`-filtered one (its parameter set differs from the
initial one), its response `[sampleGroupA]` arrived first, and yet the
displayed list is the superseded request's response — the stale response is
applied because `fetchJobGroups` has no last-request-wins check. -/
theorem claim1_stale_response_applied :
    c1FinalState.statusFilter = "Open"
  ∧ c1FinalState.jobGroups = [sampleGroupA, sampleGroupB]
  ∧ ([sampleGroupA, sampleGroupB] : List JobGroup) ≠ [sampleGroupA]
  ∧ buildJobGroupsParams { initialState with statusFilter := "Open" } ≠
      buildJobGroupsParams initialState := by decide

/-- C2: in the concrete race of `c2FinalState`, the modal title shows group
`"g456"` while the displayed job list is `"g123"`'s — `openJobsModal` clears
the previous list at dispatch but applies whichever response arrives last,
with no last-request-wins check keyed by the group id. -/
theorem claim2_modal_shows_wrong_group :
    c2FinalState.modalGroupId = "g456"
  ∧ c2FinalState.modalJobs = [sampleJob "g123"]
  ∧ (sampleJob "g123").job_group_id ≠ "g456" := by decide

/-- C3 counterexample: a failed sync attempt does not leave the previously
stored `SyncResult` unchanged — `handleSync` clears it to `null` at dispatch
and the failure path never restores it. -/
theorem claim3_counterexample :
    c3Before.result = some sampleSyncResponse
  ∧ (handleSyncResolve (handleSyncDispatch c3Before).state c3Before.status
      (Except.error "Failed to sync jobs")).state.result = none
  ∧ some sampleSyncResponse ≠ (none : Option SyncResponse) := by decide

/-- C3 amended: after any dispatched sync attempt that fails (non-2xx or
transport error), the stored `SyncResult` is `none` — it was cleared when
the attempt was dispatched — with a single error toast and no follow-up
requests. -/
theorem claim3_amended_result_cleared (s : PageState) (st : SyncStatus)
    (e : String) (h : jsTrim s.jobGroupId ≠ "") :
    (handleSyncResolve (handleSyncDispatch s).state st
        (Except.error e)).state.result = none
  ∧ (handleSyncResolve (handleSyncDispatch s).state st
        (Except.error e)).toasts = [Toast.error e]
  ∧ (handleSyncResolve (handleSyncDispatch s).state st
        (Except.error e)).requests = [] := by
  simp [handleSyncDispatch, handleSyncResolve, h]

/-- C3 witness: the amended statement at the concrete state `c3Before`. -/
theorem claim3_amended_result_cleared_witness :
    (handleSyncResolve (handleSyncDispatch c3Before).state SyncStatus.Open
        (Except.error "Failed to sync jobs")).state.result = none
  ∧ (handleSyncResolve (handleSyncDispatch c3Before).state SyncStatus.Open
        (Except.error "Failed to sync jobs")).toasts =
      [Toast.error "Failed to sync jobs"]
  ∧ (handleSyncResolve (handleSyncDispatch c3Before).state SyncStatus.Open
        (Except.error "Failed to sync jobs")).requests = [] :=
  claim3_amended_result_cleared c3Before SyncStatus.Open "Failed to sync jobs"
    (by decide)

/-- Unfold `embPos` into an existence statement. -/
theorem embPos_iff (d : SyncResponse) :
    embPos d = true ↔ ∃ n, d.embeddings_updated = some n ∧ 0 < n := by
  cases h : d.embeddings_updated <;> simp [embPos, h]

/-- The two success toast variants are never the same string: the embeddings
variant is strictly longer. -/
theorem syncLong_ne_short (d : SyncResponse) (n : Int) :
    syncLongMessage d n ≠ syncShortMessage d := by
  intro h
  have hl := congrArg String.length h
  have e1 : (" - " : String).length = 3 := by decide
  have e2 : (" row(s) affected, " : String).length = 18 := by decide
  have e3 : (" embedding(s) rebuilt" : String).length = 21 := by decide
  have e4 : (" row(s) affected" : String).length = 16 := by decide
  simp [syncLongMessage, syncShortMessage, String.length_append,
        e1, e2, e3, e4] at hl
  omega

/-- C4 counterexample: with `embeddings_updated = 5 > 0` but submitted
status `"Close"`, the success toast is the plain message without the
embeddings clause, while the same response under status `"Open"` does get
the clause — so the clause is not independent of the submitted status. -/
theorem claim4_counterexample :
    c4Resp.embeddings_updated = some 5
  ∧ syncSuccessMessage SyncStatus.Close c4Resp = syncShortMessage c4Resp
  ∧ syncSuccessMessage SyncStatus.Open c4Resp ≠ syncShortMessage c4Resp := by
  decide

/-- C4 amended: the success toast differs from the plain (clause-free)
variant exactly when the submitted status is `"Open"` and
`embeddings_updated` is present and strictly positive. -/
theorem claim4_amended_clause_iff (st : SyncStatus) (d : SyncResponse) :
    syncSuccessMessage st d ≠ syncShortMessage d ↔
      st = SyncStatus.Open ∧ ∃ n, d.embeddings_updated = some n ∧ 0 < n := by
  by_cases hc : st = SyncStatus.Open ∧ embPos d = true
  · simp only [syncSuccessMessage, if_pos hc]
    simp [syncLong_ne_short, hc.1, ← embPos_iff, hc.2]
  · simp only [syncSuccessMessage, if_neg hc]
    simp only [ne_eq, not_true_eq_false, false_iff, ← embPos_iff]
    simpa using hc

/-- C5 counterexample: a failed stats read leaves the state identical but
for the loading flag — no state field records the error (the only error
field in the component, `jobGroupsError`, stays `none`); the failure is only
logged to the console. -/
theorem claim5_counterexample :
    fetchStatsResolve c5Before (Except.error "Failed to fetch stats") =
      { state := { c5Before with statsLoading := false },
        toasts := [],
        logs := ["Error fetching stats: Failed to fetch stats"],
        requests := [] }
  ∧ c5Before.jobGroupsError = none
  ∧ (fetchStatsResolve c5Before
      (Except.error "Failed to fetch stats")).state.jobGroupsError = none := by
  decide

/-- C5 amended: a failed job-groups read sets `jobGroupsError` and preserves
the last-good list; failed stats and countries reads record nothing in state
(console log only); a failed modal read emits an error toast only.  No
failure path issues any request (no automatic retry) and each leaves every
other resource's state untouched. -/
theorem claim5_amended_failure_local (s : PageState) (e : String) :
    ((fetchJobGroupsResolve s (Except.error e)).state.jobGroupsError = some e
      ∧ (fetchJobGroupsResolve s (Except.error e)).state.jobGroups = s.jobGroups
      ∧ (fetchJobGroupsResolve s (Except.error e)).state.stats = s.stats
      ∧ (fetchJobGroupsResolve s (Except.error e)).state.countries = s.countries
      ∧ (fetchJobGroupsResolve s (Except.error e)).state.modalJobs = s.modalJobs
      ∧ (fetchJobGroupsResolve s (Except.error e)).state.result = s.result
      ∧ (fetchJobGroupsResolve s (Except.error e)).requests = [])
  ∧ fetchStatsResolve s (Except.error e) =
      { state := { s with statsLoading := false },
        logs := ["Error fetching stats: " ++ e] }
  ∧ fetchCountriesResolve s (Except.error e) =
      { state := s, logs := ["Error fetching countries: " ++ e] }
  ∧ openJobsModalResolve s (Except.error e) =
      { state := { s with modalLoading := false },
        toasts := [Toast.error e] } :=
  ⟨⟨rfl, rfl, rfl, rfl, rfl, rfl, rfl⟩, rfl, rfl, rfl⟩

/-- C6 counterexample: changing the search text is a `QueryParams` mutation
that triggers no fetch at all — `searchQuery` is in no `useEffect`
dependency array. -/
theorem claim6_counterexample :
    initialState.searchQuery ≠ "abc"
  ∧ (onSearchChange initialState "abc").state.searchQuery = "abc"
  ∧ (onSearchChange initialState "abc").requests = [] := by decide

/-- C6 amended: changing the status filter, sort key, or sort order each
issues exactly one job-groups fetch and leaves stats and countries state
untouched; changing the search text issues no fetch (the search fetch runs
only on Enter); Enter in the search box issues one job-groups fetch. -/
theorem claim6_amended_triggers (s : PageState) (v : String) (k : SortKey)
    (q : String) (hv : v ≠ s.statusFilter) (hk : k ≠ s.sortBy) :
    ((onStatusFilterChange s v).requests =
        [Request.jobGroups (buildJobGroupsParams { s with statusFilter := v })]
      ∧ (onStatusFilterChange s v).state.stats = s.stats
      ∧ (onStatusFilterChange s v).state.countries = s.countries)
  ∧ ((onSortByChange s k).requests =
        [Request.jobGroups (buildJobGroupsParams { s with sortBy := k })]
      ∧ (onSortByChange s k).state.stats = s.stats
      ∧ (onSortByChange s k).state.countries = s.countries)
  ∧ ((∃ p, (onToggleSortOrder s).requests = [Request.jobGroups p])
      ∧ (onToggleSortOrder s).state.stats = s.stats
      ∧ (onToggleSortOrder s).state.countries = s.countries)
  ∧ ((onSearchChange s q).requests = []
      ∧ (onSearchChange s q).state = { s with searchQuery := q })
  ∧ ((onSearchEnter s).requests =
        [Request.jobGroups (buildJobGroupsParams s)]
      ∧ (onSearchEnter s).state.stats = s.stats) := by
  refine ⟨?_, ?_, ?_, ?_, ?_⟩
  · simp [onStatusFilterChange, hv, fetchJobGroupsStart]
  · simp [onSortByChange, hk, fetchJobGroupsStart]
  · exact ⟨⟨_, rfl⟩, rfl, rfl⟩
  · exact ⟨rfl, rfl⟩
  · exact ⟨rfl, rfl⟩

/-- C6 witness: the amended statement at the initial state with concrete
filter, sort-key and search mutations. -/
theorem claim6_amended_triggers_witness :
    (onStatusFilterChange initialState "Open").requests =
      [Request.jobGroups
        (buildJobGroupsParams { initialState with statusFilter := "Open" })]
  ∧ (onSearchChange initialState "x").requests = [] := by
  have h := claim6_amended_triggers initialState "Open" SortKey.statusKey "x"
    (by decide) (by decide)
  exact ⟨h.1.1, h.2.2.2.1.1⟩
